import Mathlib

/-!
Shallow embedding of the hybrid progressive-capture orchestrator
(repository bdougie/jobs) and proofs about the claims of its
specification.

The embedding covers the pieces of the source the claims are about:

* the Hybrid Forge Client
  (scripts/progressive-capture/lib/hybrid-github-client.js),
* the Hybrid Router classifier
  (HybridQueueManager.isRecentDataJob),
* the Rate-Limit Governor (RateLimitMonitor),
* the Progress tracker job-status updater
  (scripts/progressive-capture/lib/progress-tracker.js),
* the rollout scripts (scripts/rollout/set-rollout-percentage.js,
  scripts/rollout/verify-rollback.js) and the operator CLI
  (ops/scripts/rollout-manager.ts).

Forge and store calls are modelled by passing their outcomes in
explicitly (an Except value per forge call, a Bool success flag per
store call); JavaScript numbers are modelled as Int or Rat; objects
become structures.  Payload fields the claims never inspect (the parsed
PR, file, review and comment data) are abstracted to an opaque Nat that
the code carries through unchanged; rate-limit and metrics fields, which
the claims do inspect, are modelled exactly.
-/

namespace HybridCapture

/- ===================================================================
   Hybrid Forge Client
   (scripts/progressive-capture/lib/hybrid-github-client.js)
   =================================================================== -/

/-- Failure of a forge call: a 404 (the item does not exist) or any
other failure (network error, rate limiting, malformed response).  The
JavaScript code receives these as thrown exceptions. -/
inductive ForgeError where
  | notFound
  | transport
  deriving DecidableEq

/-- The rateLimit record carried on responses: forge-attributed cost,
remaining budget and budget limit. -/
structure RateLimitInfo where
  cost : Int
  remaining : Int
  limit : Int
  deriving DecidableEq

/-- The metrics counters of HybridGitHubClient (constructor, lines
16-21 of hybrid-github-client.js). -/
structure Metrics where
  graphqlQueries : Nat
  restQueries : Nat
  fallbacks : Nat
  totalPointsSaved : Int
  deriving DecidableEq

/-- Fresh metrics, as set up by the client constructor. -/
def Metrics.init : Metrics :=
  { graphqlQueries := 0, restQueries := 0, fallbacks := 0, totalPointsSaved := 0 }

/-- A successful compound-query (GraphQL) response: the forge-attributed
rateLimit plus the payload, abstracted to an opaque value. -/
structure GqlResult where
  payload : Nat
  rateLimit : RateLimitInfo
  deriving DecidableEq

/-- The normalised record returned by getPRCompleteData: the transformed
payload (abstracted) plus the rateLimit record. -/
structure PRCompleteResponse where
  payload : Nat
  rateLimit : RateLimitInfo
  deriving DecidableEq

/-- transformPRCompleteData: reshapes the GraphQL payload (abstracted
here) and copies result.rateLimit onto the returned record. -/
def transformPRCompleteData (r : GqlResult) : PRCompleteResponse :=
  { payload := r.payload, rateLimit := r.rateLimit }

/-- calculatePointsSaved(restCalls, graphqlCost) = max(0, restCalls - graphqlCost). -/
def calculatePointsSaved (restCalls graphqlCost : Int) : Int :=
  max 0 (restCalls - graphqlCost)

/-- getPRCompleteDataREST: five parallel REST calls; on success it adds
5 to restQueries and returns the assembled record with the hardcoded
rateLimit record cost 5, remaining 5000, limit 5000 (lines 78-83).  If
any of the five calls fails, Promise.all rejects before the metrics
increment, and the error is rethrown. -/
def getPRCompleteDataREST (rest : Except ForgeError Nat) (m : Metrics) :
    Except ForgeError PRCompleteResponse × Metrics :=
  match rest with
  | .ok d =>
      (.ok { payload := d, rateLimit := { cost := 5, remaining := 5000, limit := 5000 } },
       { m with restQueries := m.restQueries + 5 })
  | .error e => (.error e, m)

/-- getPRCompleteData: with useGraphQL enabled it tries the compound
query; on success it increments graphqlQueries and adds
calculatePointsSaved(5, cost) to totalPointsSaved; the surrounding catch
covers every thrown error - a forge 404 included - and increments
fallbacks, then runs the REST path.  With useGraphQL disabled it runs
the REST path directly. -/
def getPRCompleteData (useGraphQL : Bool) (compound : Except ForgeError GqlResult)
    (rest : Except ForgeError Nat) (m : Metrics) :
    Except ForgeError PRCompleteResponse × Metrics :=
  if useGraphQL then
    match compound with
    | .ok r =>
        let m1 := { m with graphqlQueries := m.graphqlQueries + 1 }
        let m2 := { m1 with
          totalPointsSaved := m1.totalPointsSaved + calculatePointsSaved 5 r.rateLimit.cost }
        (.ok (transformPRCompleteData r), m2)
    | .error _ =>
        getPRCompleteDataREST rest { m with fallbacks := m.fallbacks + 1 }
  else
    getPRCompleteDataREST rest m

/-- The record returned by getPRReviews: the REST variant returns only
the reviews array, the GraphQL variant additionally carries rateLimit. -/
structure ReviewsResponse where
  payload : Nat
  rateLimit : Option RateLimitInfo
  deriving DecidableEq

/-- transformPRReviews: reshapes the reviews (abstracted) and copies
result.rateLimit. -/
def transformPRReviews (r : GqlResult) : ReviewsResponse :=
  { payload := r.payload, rateLimit := some r.rateLimit }

/-- getPRReviewsREST: one REST call; increments restQueries by 1 and
returns the reviews with no rateLimit field. -/
def getPRReviewsREST (rest : Except ForgeError Nat) (m : Metrics) :
    Except ForgeError ReviewsResponse × Metrics :=
  match rest with
  | .ok d => (.ok { payload := d, rateLimit := none },
      { m with restQueries := m.restQueries + 1 })
  | .error e => (.error e, m)

/-- getPRReviews: compound path increments graphqlQueries; the catch
covers every error and falls back to the REST path after incrementing
fallbacks. -/
def getPRReviews (useGraphQL : Bool) (compound : Except ForgeError GqlResult)
    (rest : Except ForgeError Nat) (m : Metrics) :
    Except ForgeError ReviewsResponse × Metrics :=
  if useGraphQL then
    match compound with
    | .ok r => (.ok (transformPRReviews r),
        { m with graphqlQueries := m.graphqlQueries + 1 })
    | .error _ =>
        getPRReviewsREST rest { m with fallbacks := m.fallbacks + 1 }
  else
    getPRReviewsREST rest m

/-- The record returned by getPRComments: issue plus review comments
(abstracted payload); only the GraphQL variant carries rateLimit. -/
structure CommentsResponse where
  payload : Nat
  rateLimit : Option RateLimitInfo
  deriving DecidableEq

/-- transformPRComments: reshapes the comments (abstracted) and copies
result.rateLimit. -/
def transformPRComments (r : GqlResult) : CommentsResponse :=
  { payload := r.payload, rateLimit := some r.rateLimit }

/-- getPRCommentsREST: two parallel REST calls; increments restQueries
by 2. -/
def getPRCommentsREST (rest : Except ForgeError Nat) (m : Metrics) :
    Except ForgeError CommentsResponse × Metrics :=
  match rest with
  | .ok d => (.ok { payload := d, rateLimit := none },
      { m with restQueries := m.restQueries + 2 })
  | .error e => (.error e, m)

/-- getPRComments: compound path increments graphqlQueries; the catch
covers every error and falls back to the REST path after incrementing
fallbacks. -/
def getPRComments (useGraphQL : Bool) (compound : Except ForgeError GqlResult)
    (rest : Except ForgeError Nat) (m : Metrics) :
    Except ForgeError CommentsResponse × Metrics :=
  if useGraphQL then
    match compound with
    | .ok r => (.ok (transformPRComments r),
        { m with graphqlQueries := m.graphqlQueries + 1 })
    | .error _ =>
        getPRCommentsREST rest { m with fallbacks := m.fallbacks + 1 }
  else
    getPRCommentsREST rest m

/-- transformRecentPRs: maps the pullRequests nodes to the summary list
(abstracted); no rateLimit on the returned value. -/
def transformRecentPRs (r : GqlResult) : Nat :=
  r.payload

/-- getRecentPRsREST: one REST list call; increments restQueries by 1. -/
def getRecentPRsREST (rest : Except ForgeError Nat) (m : Metrics) :
    Except ForgeError Nat × Metrics :=
  match rest with
  | .ok d => (.ok d, { m with restQueries := m.restQueries + 1 })
  | .error e => (.error e, m)

/-- getRecentPRs: compound path increments graphqlQueries; the catch
covers every error and falls back to the REST path after incrementing
fallbacks. -/
def getRecentPRs (useGraphQL : Bool) (compound : Except ForgeError GqlResult)
    (rest : Except ForgeError Nat) (m : Metrics) :
    Except ForgeError Nat × Metrics :=
  if useGraphQL then
    match compound with
    | .ok r => (.ok (transformRecentPRs r),
        { m with graphqlQueries := m.graphqlQueries + 1 })
    | .error _ =>
        getRecentPRsREST rest { m with fallbacks := m.fallbacks + 1 }
  else
    getRecentPRsREST rest m

/- ===================================================================
   Hybrid Router classifier (HybridQueueManager.isRecentDataJob)
   =================================================================== -/

/-- The JobData fields the classifier reads.  Absent fields are none;
timeRange is the requested range in days, prNumbers the explicit PR
list, triggerSource the literal trigger tag. -/
structure JobData where
  timeRange : Option Int
  prNumbers : Option (List Nat)
  triggerSource : Option String
  deriving DecidableEq

/-- JavaScript truthiness test of the first clause,
data.timeRange && data.timeRange <= 1: the field must be present and
non-zero (0 is falsy) before the comparison fires. -/
def jsTimeRangeRecent : Option Int → Bool
  | some t => decide (t ≠ 0) && decide (t ≤ 1)
  | none => false

/-- JavaScript truthiness test of the second clause,
data.prNumbers && data.prNumbers.length <= 10: an array is truthy even
when empty, so a present-but-empty list passes. -/
def jsPrNumbersSmall : Option (List Nat) → Bool
  | some l => decide (l.length ≤ 10)
  | none => false

/-- HybridQueueManager.isRecentDataJob, clause by clause: the three ifs
return true in order, otherwise false. -/
def isRecentDataJob (d : JobData) : Bool :=
  if jsTimeRangeRecent d.timeRange then true
  else if jsPrNumbersSmall d.prNumbers then true
  else if d.triggerSource = some "manual" then true
  else false

/- ===================================================================
   Rate-Limit Governor (RateLimitMonitor, rate-limit tracking library)
   =================================================================== -/

/-- One tracked rate-limit observation.  track spreads the rateLimit
record into the entry next to queryType and itemsProcessed; the
timestamp is abstracted away because predict and getStats never read it
(it only feeds the 24-hour eviction). -/
structure RLSample where
  queryType : String
  itemsProcessed : ℚ
  cost : ℚ
  remaining : ℚ
  limit : ℚ
  deriving DecidableEq

/-- An alert produced by checkThresholds (timestamp abstracted away). -/
structure Alert where
  level : String
  message : String
  deriving DecidableEq

/-- The mutable thresholds of the monitor. -/
structure Thresholds where
  warning : ℚ
  critical : ℚ
  efficiency : ℚ
  deriving DecidableEq

/-- The in-memory state of RateLimitMonitor: the ordered sample history,
the bounded alert list and the thresholds. -/
structure RateLimitMonitor where
  history : List RLSample
  alerts : List Alert
  thresholds : Thresholds
  deriving DecidableEq

/-- history.slice(-10): the (up to) ten most recent entries. -/
def lastTen (l : List RLSample) : List RLSample :=
  l.drop (l.length - 10)

/-- recent.reduce((sum, entry) => sum + entry.cost, 0). -/
def sumCost (l : List RLSample) : ℚ :=
  l.foldl (fun s e => s + e.cost) 0

/-- recent.reduce((sum, entry) => sum + entry.itemsProcessed, 0). -/
def sumItems (l : List RLSample) : ℚ :=
  l.foldl (fun s e => s + e.itemsProcessed) 0

/-- history[history.length - 1]?.remaining || 0: the remaining field of
the most recent sample, 0 when the history is empty (and also when the
stored value is 0, which the || cannot distinguish). -/
def lastRemaining (l : List RLSample) : ℚ :=
  ((l.getLast?).map RLSample.remaining).getD 0

/-- Number.prototype.toFixed(f) on an idealised (exact) number: the
integer closest to x times 10 to the f, larger one on ties, divided back
down.  The JavaScript code formats averageCost with toFixed(2) and
predictedCost with toFixed(0) before returning them. -/
def jsToFixed (f : Nat) (x : ℚ) : ℚ :=
  (⌊x * 10 ^ f + 1 / 2⌋ : ℤ) / (10 ^ f : ℚ)

/-- The record returned by predict. -/
structure Prediction where
  queriesRemaining : ℚ
  averageCost : ℚ
  predictedCost : ℚ
  currentRemaining : ℚ
  willExceedLimit : Bool
  safeQueries : ℤ
  deriving DecidableEq

/-- RateLimitMonitor.predict: null on an empty history; otherwise the
average cost over the last ten samples, the predicted cost for
queriesRemaining more queries, the current remaining budget, the
exceed flag and the floor of remaining over average.  averageCost and
predictedCost are passed through toFixed before being returned;
willExceedLimit and safeQueries use the unformatted values.  The source
divides by averageCost unguarded; this model uses the rational
convention x / 0 = 0 where JavaScript would produce Infinity. -/
def RateLimitMonitor.predict (m : RateLimitMonitor) (queriesRemaining : ℚ) :
    Option Prediction :=
  if m.history.length = 0 then none
  else
    let recent := lastTen m.history
    let averageCost := sumCost recent / (recent.length : ℚ)
    let currentRemaining := lastRemaining m.history
    let predictedCost := queriesRemaining * averageCost
    some
      { queriesRemaining := queriesRemaining
        averageCost := jsToFixed 2 averageCost
        predictedCost := jsToFixed 0 predictedCost
        currentRemaining := currentRemaining
        willExceedLimit := decide (predictedCost > currentRemaining)
        safeQueries := ⌊currentRemaining / averageCost⌋ }

/-- The record returned by getStats (lastUpdate, a timestamp, is
abstracted away). -/
structure Stats where
  totalQueries : Nat
  recentQueries : Nat
  averageCost : ℚ
  averageEfficiency : ℚ
  currentRemaining : ℚ
  currentLimit : ℚ
  alertCount : Nat
  deriving DecidableEq

/-- RateLimitMonitor.getStats: null on an empty history; otherwise
aggregates over the last ten samples.  currentLimit reads
history[last]?.limit || 5000, so a stored limit of 0 also falls back to
5000. -/
def RateLimitMonitor.getStats (m : RateLimitMonitor) : Option Stats :=
  if m.history.length = 0 then none
  else
    let recent := lastTen m.history
    let totalCost := sumCost recent
    let totalItems := sumItems recent
    some
      { totalQueries := m.history.length
        recentQueries := recent.length
        averageCost := totalCost / (recent.length : ℚ)
        averageEfficiency := if totalItems > 0 then totalCost / totalItems else 0
        currentRemaining := lastRemaining m.history
        currentLimit :=
          (let v := ((m.history.getLast?).map RLSample.limit).getD 0
           if v = 0 then 5000 else v)
        alertCount := m.alerts.length }

/- ===================================================================
   Job rows (ProgressTracker.updateJobStatus,
   scripts/progressive-capture/lib/progress-tracker.js)
   =================================================================== -/

/-- A row of progressive_capture_jobs, restricted to the columns
updateJobStatus can touch plus the lifecycle timestamps. -/
structure JobRow where
  status : String
  error : Option String
  created_at : Option String
  started_at : Option String
  completed_at : Option String
  updated_at : Option String
  deriving DecidableEq

/-- A job row as created on acceptance: status pending, created_at
stamped, every other timestamp null (the table defaults). -/
def freshJobRow (created : String) : JobRow :=
  { status := "pending", error := none, created_at := some created,
    started_at := none, completed_at := none, updated_at := none }

/-- ProgressTracker.updateJobStatus: builds an update object carrying
status and updated_at, adds completed_at only when the new status is
completed, adds the error text only when the new status is failed and an
error was passed, and applies it to the job row.  No branch ever writes
started_at. -/
def updateJobStatus (status : String) (error : Option String) (now : String)
    (j : JobRow) : JobRow :=
  let j1 := { j with status := status, updated_at := some now }
  if status = "completed" then { j1 with completed_at := some now }
  else if status = "failed" ∧ error ≠ none then { j1 with error := error }
  else j1

/- ===================================================================
   Rollout Controller
   (scripts/rollout/set-rollout-percentage.js,
    scripts/rollout/verify-rollback.js, ops/scripts/rollout-manager.ts)
   =================================================================== -/

/-- The rollout_configuration row for the feature, restricted to the
columns the scripts read or write (updated_at abstracted away). -/
structure RolloutConfig where
  id : Nat
  rollout_percentage : Int
  emergency_stop : Bool
  is_active : Bool
  deriving DecidableEq

/-- A rollout_history row as inserted by set-rollout-percentage.js (the
metadata object, carrying a timestamp and the script tag, is abstracted
away). -/
structure HistoryEntry where
  rollout_config_id : Nat
  action : String
  previous_percentage : Int
  new_percentage : Int
  reason : String
  triggered_by : String
  deriving DecidableEq

/-- The store state the rollout scripts touch: the configuration row of
the feature (none when the table has no row) and the append-only
history. -/
structure RolloutStore where
  config : Option RolloutConfig
  history : List HistoryEntry
  deriving DecidableEq

/-- Outcome of a script run: the process exit code and the store as left
behind. -/
structure ScriptRun where
  exitCode : Nat
  store : RolloutStore
  deriving DecidableEq

/-- Which of the three store calls of set-rollout-percentage.js succeed:
the configuration fetch, the configuration update, the history insert.
Each Supabase call can fail independently and the script checks each
returned error separately. -/
structure StoreFates where
  fetchOk : Bool
  updateOk : Bool
  historyOk : Bool
  deriving DecidableEq

/-- set-rollout-percentage.js from argument parsing to process exit.
targetPercentage is the parsed integer (none models NaN); the fetch
filters on is_active = true, so an inactive row is not found; the
emergency-stop guard runs between fetch and update; the configuration
update and the history insert are two separate store calls, and a failed
history insert is only logged as a warning - the script still exits 0.
The credentials check and console output are outside the model. -/
def setRolloutPercentage (targetPercentage : Option Int) (fates : StoreFates)
    (st : RolloutStore) (reason : String) : ScriptRun :=
  match targetPercentage with
  | none => { exitCode := 1, store := st }
  | some percentage =>
    if percentage < 0 ∨ percentage > 100 then { exitCode := 1, store := st }
    else if ¬ fates.fetchOk then { exitCode := 1, store := st }
    else
      match st.config with
      | none => { exitCode := 1, store := st }
      | some config =>
        if ¬ config.is_active then { exitCode := 1, store := st }
        else if config.emergency_stop then { exitCode := 1, store := st }
        else
          let previousPercentage := config.rollout_percentage
          if ¬ fates.updateOk then { exitCode := 1, store := st }
          else
            let st1 : RolloutStore :=
              { st with config := some { config with rollout_percentage := percentage } }
            if fates.historyOk then
              { exitCode := 0,
                store :=
                  { st1 with history := st1.history ++
                      [{ rollout_config_id := config.id, action := "updated",
                         previous_percentage := previousPercentage,
                         new_percentage := percentage, reason := reason,
                         triggered_by := "manual" }] } }
            else
              { exitCode := 0, store := st1 }

/-- rollout-manager.ts updateRolloutPercentage (operator CLI): validates
the 0..100 range, then updates the configuration row directly, with no
emergency-stop check and no history write, returning the updated row on
success.  The update filters on feature_name only, so it also hits an
inactive or emergency-stopped row. -/
def updateRolloutPercentage (newPercentage : Int) (updateOk : Bool)
    (st : RolloutStore) : Option RolloutConfig × RolloutStore :=
  if newPercentage < 0 ∨ newPercentage > 100 then (none, st)
  else
    match st.config with
    | none => (none, st)
    | some config =>
      if ¬ updateOk then (none, st)
      else
        let config1 := { config with rollout_percentage := newPercentage }
        (some config1, { st with config := some config1 })

/-- The verification report built by verify-rollback.js. -/
structure VerificationReport where
  expectedPercentage : String
  actualPercentage : String
  status : String
  deriving DecidableEq

/-- verify-rollback.js: builds its report from EXPECTED_PERCENTAGE
alone.  The store - whose credentials the surrounding workflow supplies
in the environment - is never queried: the store parameter is unused,
actualPercentage merely echoes the expected value, and status is the
constant verified. -/
def verifyRollback (expectedPercentage : String) (_st : RolloutStore) :
    VerificationReport :=
  { expectedPercentage := expectedPercentage,
    actualPercentage := expectedPercentage,
    status := "verified" }

/- ===================================================================
   Claim C1 - fallback policy of the Hybrid Forge Client
   =================================================================== -/

/-- Claim C1, counterexample: with the compound path enabled and the
compound query failing with NotFound (forge 404), getPRCompleteData does
not surface NotFound - it increments the fallbacks counter, executes the
five-call fine-grained path and returns its record. -/
theorem c1_counterexample :
    (getPRCompleteData true (.error .notFound) (.ok 7) Metrics.init).1 =
      .ok { payload := 7, rateLimit := { cost := 5, remaining := 5000, limit := 5000 } } ∧
    (getPRCompleteData true (.error .notFound) (.ok 7) Metrics.init).2 =
      { graphqlQueries := 0, restQueries := 5, fallbacks := 1, totalPointsSaved := 0 } ∧
    (Except.ok { payload := 7, rateLimit := { cost := 5, remaining := 5000, limit := 5000 } }
        : Except ForgeError PRCompleteResponse) ≠ .error .notFound := by
  refine ⟨rfl, rfl, ?_⟩
  intro h
  exact Except.noConfusion h

/-- Claim C1, amended: for every forge read operation of the hybrid
client with the compound path enabled, ANY compound failure - NotFound
included - increments fallbacks and executes the fine-grained path on
the so-incremented metrics; there is no NotFound short-circuit. -/
theorem c1_amended :
    ∀ (e : ForgeError) (rest : Except ForgeError Nat) (m : Metrics),
      getPRCompleteData true (.error e) rest m =
        getPRCompleteDataREST rest { m with fallbacks := m.fallbacks + 1 } ∧
      getPRReviews true (.error e) rest m =
        getPRReviewsREST rest { m with fallbacks := m.fallbacks + 1 } ∧
      getPRComments true (.error e) rest m =
        getPRCommentsREST rest { m with fallbacks := m.fallbacks + 1 } ∧
      getRecentPRs true (.error e) rest m =
        getRecentPRsREST rest { m with fallbacks := m.fallbacks + 1 } := by
  intro e rest m
  exact ⟨rfl, rfl, rfl, rfl⟩

/- ===================================================================
   Claim C5 - rollback verification never reads the store
   =================================================================== -/

/-- A live configuration still holding 50 percent, not stopped. -/
def c5Config : RolloutConfig :=
  { id := 4, rollout_percentage := 50, emergency_stop := false, is_active := true }

/-- A live store whose configuration still holds 50 percent. -/
def c5Store : RolloutStore :=
  { config := some c5Config, history := [] }

/-- Claim C5: at a store whose live configuration holds 50 percent,
verify-rollback with expected percentage 0 still reports status verified
and echoes 0 as the actual percentage; indeed its report is the same for
every store state, so the live configuration is never read. -/
theorem c5_verify_never_reads_store :
    verifyRollback "0" c5Store =
      { expectedPercentage := "0", actualPercentage := "0", status := "verified" } ∧
    c5Store.config.map RolloutConfig.rollout_percentage = some 50 ∧
    ∀ (e : String) (st1 st2 : RolloutStore), verifyRollback e st1 = verifyRollback e st2 := by
  exact ⟨rfl, rfl, fun e st1 st2 => rfl⟩

/- ===================================================================
   Claim C6 - the classifier of the Hybrid Router
   =================================================================== -/

/-- The classification rule exactly as claim C6 states it: low-latency
iff timeRangeDays is present and at most 1, or prNumbers is present,
non-empty and has at most 10 entries, or triggerSource is manual. -/
def claimedLowLatency (d : JobData) : Bool :=
  (match d.timeRange with
   | some t => decide (t ≤ 1)
   | none => false) ||
  (match d.prNumbers with
   | some l => decide (l ≠ []) && decide (l.length ≤ 10)
   | none => false) ||
  (d.triggerSource == some "manual")

/-- The classification rule the code implements: low-latency iff
timeRange is present, non-zero and at most 1, or prNumbers is present -
possibly empty - with at most 10 entries, or triggerSource is manual. -/
def amendedLowLatency (d : JobData) : Bool :=
  (match d.timeRange with
   | some t => decide (t ≠ 0) && decide (t ≤ 1)
   | none => false) ||
  (match d.prNumbers with
   | some l => decide (l.length ≤ 10)
   | none => false) ||
  (d.triggerSource == some "manual")

/-- The particular request of claim C6: empty prNumbers list,
timeRangeDays greater than 1, scheduled trigger. -/
def c6Request : JobData :=
  { timeRange := some 30, prNumbers := some ([] : List Nat),
    triggerSource := some "scheduled" }

/-- Claim C6, counterexample: the request with an empty prNumbers list,
timeRangeDays 30 and a scheduled trigger is classified low-latency by
the code (an empty array is truthy in JavaScript), while the claim
classifies it as batch. -/
theorem c6_counterexample :
    isRecentDataJob c6Request = true ∧ claimedLowLatency c6Request = false := by
  exact ⟨rfl, rfl⟩

/-- Claim C6, amended: the classifier returns low-latency iff (a)
timeRange is present, non-zero and at most 1, or (b) prNumbers is
present - the empty list included - with at most 10 entries, or (c)
triggerSource is manual, and batch otherwise. -/
theorem c6_amended : ∀ (d : JobData), isRecentDataJob d = amendedLowLatency d := by
  intro d
  obtain ⟨tr, pn, ts⟩ := d
  unfold isRecentDataJob amendedLowLatency jsTimeRangeRecent jsPrNumbersSmall
  cases tr <;> cases pn <;>
    simp [beq_iff_eq] <;>
    by_cases h : ts = some "manual" <;>
    simp [h]

/- ===================================================================
   Claim C9 - no prediction and no stats before the first sample
   =================================================================== -/

/-- Claim C9: a governor state that has never tracked a sample - empty
history, whatever alerts and thresholds hold - yields no prediction for
any queriesRemaining and no stats record, rather than a zero-filled
report. -/
theorem c9_empty_history_nulls :
    ∀ (alerts : List Alert) (th : Thresholds) (q : ℚ),
      RateLimitMonitor.predict { history := [], alerts := alerts, thresholds := th } q
        = none ∧
      RateLimitMonitor.getStats { history := [], alerts := alerts, thresholds := th }
        = none := by
  intro alerts th q
  exact ⟨rfl, rfl⟩

/- ===================================================================
   Claim C10 - the fine-grained path reports a constant rateLimit
   =================================================================== -/

/-- Claim C10: every record served by the fine-grained path of
getPRCompleteData - directly, with the compound path disabled, or as
fallback after any compound failure - carries the constant rateLimit
record cost 5, remaining 5000, limit 5000, whatever the five REST calls
returned and whatever the actual budget is. -/
theorem c10_rest_ratelimit_constant :
    ∀ (d : Nat) (m : Metrics) (e : ForgeError) (gql : Except ForgeError GqlResult),
      (getPRCompleteDataREST (.ok d) m).1 =
        .ok { payload := d, rateLimit := { cost := 5, remaining := 5000, limit := 5000 } } ∧
      (getPRCompleteData false gql (.ok d) m).1 =
        .ok { payload := d, rateLimit := { cost := 5, remaining := 5000, limit := 5000 } } ∧
      (getPRCompleteData true (.error e) (.ok d) m).1 =
        .ok { payload := d, rateLimit := { cost := 5, remaining := 5000, limit := 5000 } } := by
  intro d m e gql
  exact ⟨rfl, rfl, rfl⟩

/- ===================================================================
   Claim C2 - atomicity of update plus history append
   =================================================================== -/

/-- A live configuration at 10 percent, not stopped. -/
def c2Config : RolloutConfig :=
  { id := 1, rollout_percentage := 10, emergency_stop := false, is_active := true }

/-- A store holding the 10 percent configuration and an empty history. -/
def c2Store : RolloutStore :=
  { config := some c2Config, history := [] }

/-- Claim C2, counterexample: with the configuration update succeeding
and the history insert failing, the script exits 0 and leaves the
configuration at the new percentage 25 with no history entry at all -
the reachable state the claim rules out. -/
theorem c2_counterexample :
    (setRolloutPercentage (some 25)
        { fetchOk := true, updateOk := true, historyOk := false } c2Store "r").exitCode = 0 ∧
    (setRolloutPercentage (some 25)
        { fetchOk := true, updateOk := true, historyOk := false } c2Store "r").store.config.map
      RolloutConfig.rollout_percentage = some 25 ∧
    (setRolloutPercentage (some 25)
        { fetchOk := true, updateOk := true, historyOk := false } c2Store "r").store.history
      = [] := by
  exact ⟨rfl, rfl, rfl⟩

/-- Claim C2, amended: the configuration update and the history append
are two separate store operations with no atomicity - whenever the
update succeeds and the history append fails, on an active non-stopped
configuration and an in-range percentage, the stored configuration
carries the new percentage, the history is unchanged, and the script
nevertheless exits 0. -/
theorem c2_amended (p : Int) (st : RolloutStore) (cfg : RolloutConfig) (reason : String)
    (hcfg : st.config = some cfg) (hactive : cfg.is_active = true)
    (hstop : cfg.emergency_stop = false) (hlo : 0 ≤ p) (hhi : p ≤ 100) :
    setRolloutPercentage (some p)
        { fetchOk := true, updateOk := true, historyOk := false } st reason =
      { exitCode := 0,
        store := { st with config := some { cfg with rollout_percentage := p } } } := by
  have hrange : ¬ (p < 0 ∨ p > 100) := by omega
  simp [setRolloutPercentage, hrange, hcfg, hactive, hstop]

/-- Witness for c2_amended at the concrete 10-to-25 run. -/
theorem c2_amended_witness :
    c2Store.config = some c2Config ∧ c2Config.is_active = true ∧
    c2Config.emergency_stop = false ∧ (0 : Int) ≤ 25 ∧ (25 : Int) ≤ 100 ∧
    setRolloutPercentage (some 25)
        { fetchOk := true, updateOk := true, historyOk := false } c2Store "r" =
      { exitCode := 0,
        store := { c2Store with
          config := some { c2Config with rollout_percentage := 25 } } } :=
  ⟨rfl, rfl, rfl, by decide, by decide,
    c2_amended 25 c2Store c2Config "r" rfl rfl rfl (by decide) (by decide)⟩

/- ===================================================================
   Claim C3 - every successful update leaves an audit entry
   =================================================================== -/

/-- A live configuration at 50 percent, not stopped. -/
def c3Config : RolloutConfig :=
  { id := 2, rollout_percentage := 50, emergency_stop := false, is_active := true }

/-- A store holding the 50 percent configuration and an empty history. -/
def c3Store : RolloutStore :=
  { config := some c3Config, history := [] }

/-- Claim C3, counterexample: the operator CLI update from 50 to 75
succeeds - the returned row holds 75 - yet the rollout history stays
empty: this update path appends no audit entry at all. -/
theorem c3_counterexample :
    (updateRolloutPercentage 75 true c3Store).1.map RolloutConfig.rollout_percentage
      = some 75 ∧
    (updateRolloutPercentage 75 true c3Store).2.config.map RolloutConfig.rollout_percentage
      = some 75 ∧
    (updateRolloutPercentage 75 true c3Store).2.history = [] := by
  exact ⟨rfl, rfl, rfl⟩

/-- Claim C3, amended: only the set-rollout-percentage script audits its
updates - when all three of its store calls succeed it appends exactly
one history entry whose previous_percentage is the percentage fetched
before the update and whose new_percentage is the value just written -
while the operator CLI never touches the history on any input. -/
theorem c3_amended (p : Int) (st : RolloutStore) (cfg : RolloutConfig) (reason : String)
    (hcfg : st.config = some cfg) (hactive : cfg.is_active = true)
    (hstop : cfg.emergency_stop = false) (hlo : 0 ≤ p) (hhi : p ≤ 100) :
    (setRolloutPercentage (some p)
        { fetchOk := true, updateOk := true, historyOk := true } st reason).store.history =
      st.history ++
        [{ rollout_config_id := cfg.id, action := "updated",
           previous_percentage := cfg.rollout_percentage, new_percentage := p,
           reason := reason, triggered_by := "manual" }] ∧
    (setRolloutPercentage (some p)
        { fetchOk := true, updateOk := true, historyOk := true } st reason).store.config =
      some { cfg with rollout_percentage := p } ∧
    ∀ (q : Int) (ok : Bool) (st2 : RolloutStore),
      (updateRolloutPercentage q ok st2).2.history = st2.history := by
  have hrange : ¬ (p < 0 ∨ p > 100) := by omega
  refine ⟨?_, ?_, ?_⟩
  · simp [setRolloutPercentage, hrange, hcfg, hactive, hstop]
  · simp [setRolloutPercentage, hrange, hcfg, hactive, hstop]
  · intro q ok st2
    unfold updateRolloutPercentage
    by_cases hq : q < 0 ∨ q > 100
    · simp [hq]
    · cases h2 : st2.config <;> cases ok <;> simp [hq, h2]

/-- Witness for c3_amended at the concrete 50-to-75 run. -/
theorem c3_amended_witness :
    c3Store.config = some c3Config ∧ c3Config.is_active = true ∧
    c3Config.emergency_stop = false ∧ (0 : Int) ≤ 75 ∧ (75 : Int) ≤ 100 ∧
    ((setRolloutPercentage (some 75)
        { fetchOk := true, updateOk := true, historyOk := true } c3Store "r").store.history =
      c3Store.history ++
        [{ rollout_config_id := c3Config.id, action := "updated",
           previous_percentage := c3Config.rollout_percentage, new_percentage := 75,
           reason := "r", triggered_by := "manual" }] ∧
    (setRolloutPercentage (some 75)
        { fetchOk := true, updateOk := true, historyOk := true } c3Store "r").store.config =
      some { c3Config with rollout_percentage := 75 } ∧
    ∀ (q : Int) (ok : Bool) (st2 : RolloutStore),
      (updateRolloutPercentage q ok st2).2.history = st2.history) :=
  ⟨rfl, rfl, rfl, by decide, by decide,
    c3_amended 75 c3Store c3Config "r" rfl rfl rfl (by decide) (by decide)⟩

/- ===================================================================
   Claim C4 - emergency stop and range validation on update
   =================================================================== -/

/-- An emergency-stopped configuration at 50 percent (stop also clears
is_active, as the stop operation does). -/
def c4Config : RolloutConfig :=
  { id := 3, rollout_percentage := 50, emergency_stop := true, is_active := false }

/-- The configuration c4Config after the CLI wrote 75 into it. -/
def c4ConfigAfter : RolloutConfig :=
  { id := 3, rollout_percentage := 75, emergency_stop := true, is_active := false }

/-- A store holding the emergency-stopped configuration. -/
def c4Store : RolloutStore :=
  { config := some c4Config, history := [] }

/-- Claim C4, counterexample: with emergency_stop true the operator CLI
update to 75 does not fail - it succeeds and the stored percentage
changes from 50 to 75, so the update path is not guarded by the
emergency stop. -/
theorem c4_counterexample :
    c4Store.config.map RolloutConfig.emergency_stop = some true ∧
    updateRolloutPercentage 75 true c4Store =
      (some c4ConfigAfter, { c4Store with config := some c4ConfigAfter }) := by
  exact ⟨rfl, rfl⟩

/-- Claim C4, amended: the emergency-stop guard exists only on the
set-rollout-percentage script path, which refuses (exit 1, store
untouched) whenever the configuration is emergency-stopped, for every
combination of store-call outcomes; the operator CLI applies an in-range
update even on an emergency-stopped row; and both paths reject an
out-of-range percentage with no store change, so no history entry is
written. -/
theorem c4_amended (p q : Int) (st : RolloutStore) (cfg : RolloutConfig)
    (fates : StoreFates) (reason : String)
    (hcfg : st.config = some cfg) (hstop : cfg.emergency_stop = true)
    (hlo : 0 ≤ p) (hhi : p ≤ 100) (hq : q < 0 ∨ q > 100) :
    setRolloutPercentage (some p) fates st reason = { exitCode := 1, store := st } ∧
    (updateRolloutPercentage p true st).2.config =
      some { cfg with rollout_percentage := p } ∧
    setRolloutPercentage (some q) fates st reason = { exitCode := 1, store := st } ∧
    updateRolloutPercentage q true st = (none, st) := by
  have hrange : ¬ (p < 0 ∨ p > 100) := by omega
  refine ⟨?_, ?_, ?_, ?_⟩
  · by_cases hf : fates.fetchOk
    · by_cases ha : cfg.is_active <;> simp [setRolloutPercentage, hrange, hcfg, hf, ha, hstop]
    · simp [setRolloutPercentage, hrange, hf]
  · simp [updateRolloutPercentage, hrange, hcfg]
  · simp [setRolloutPercentage, hq]
  · simp [updateRolloutPercentage, hq]

/-- Witness for c4_amended at the stopped 50 percent store, in-range 75
and out-of-range 101. -/
theorem c4_amended_witness :
    c4Store.config = some c4Config ∧ c4Config.emergency_stop = true ∧
    (0 : Int) ≤ 75 ∧ (75 : Int) ≤ 100 ∧ ((101 : Int) < 0 ∨ (101 : Int) > 100) ∧
    (setRolloutPercentage (some 75)
        { fetchOk := true, updateOk := true, historyOk := true } c4Store "r" =
      { exitCode := 1, store := c4Store } ∧
    (updateRolloutPercentage 75 true c4Store).2.config =
      some { c4Config with rollout_percentage := 75 } ∧
    setRolloutPercentage (some 101)
        { fetchOk := true, updateOk := true, historyOk := true } c4Store "r" =
      { exitCode := 1, store := c4Store } ∧
    updateRolloutPercentage 101 true c4Store = (none, c4Store)) :=
  ⟨rfl, rfl, by decide, by decide, by decide,
    c4_amended 75 101 c4Store c4Config
      { fetchOk := true, updateOk := true, historyOk := true } "r"
      rfl rfl (by decide) (by decide) (by decide)⟩

/- ===================================================================
   Claim C7 - the predict algorithm of the governor
   =================================================================== -/

/-- Folding addition of costs over a list telescopes to the sum of the
mapped costs. -/
theorem foldl_add_cost (l : List RLSample) :
    ∀ a : ℚ, l.foldl (fun s e => s + e.cost) a = a + (l.map RLSample.cost).sum := by
  induction l with
  | nil => intro a; simp
  | cons x xs ih => intro a; simp [ih, add_assoc]

/-- The reduce over costs equals the sum of the mapped costs. -/
theorem sumCost_eq_map_sum (l : List RLSample) :
    sumCost l = (l.map RLSample.cost).sum := by
  simpa [sumCost] using foldl_add_cost l 0

/-- On a non-empty history the || 0 access of the last remaining value
is exactly the remaining field of the last sample. -/
theorem lastRemaining_eq_getLast (l : List RLSample) (h : l ≠ []) :
    lastRemaining l = (l.getLast h).remaining := by
  simp [lastRemaining, List.getLast?_eq_getLast_of_ne_nil h]

/-- The reference-window mean cost as the claim words it: the mean of
the cost fields of the last ten samples (all samples when fewer). -/
def specAverageCost (m : RateLimitMonitor) : ℚ :=
  ((lastTen m.history).map RLSample.cost).sum / ((lastTen m.history).length : ℚ)

/-- The default thresholds set up by the monitor constructor. -/
def c7Thresholds : Thresholds :=
  { warning := 1000, critical := 100, efficiency := 5 }

/-- A sample with the given cost, one item processed, 100 points
remaining out of 5000. -/
def c7Sample (c : ℚ) : RLSample :=
  { queryType := "pr_complete", itemsProcessed := 1, cost := c,
    remaining := 100, limit := 5000 }

/-- A governor state with three tracked samples of costs 1, 1 and 2. -/
def c7Mon : RateLimitMonitor :=
  { history := [c7Sample 1, c7Sample 1, c7Sample 2], alerts := [],
    thresholds := c7Thresholds }

/-- The three-sample history is non-empty. -/
theorem c7MonNeNil : c7Mon.history ≠ [] := by
  simp [c7Mon]

/-- Claim C7, counterexample: on the three-sample history with costs 1,
1 and 2 the mean cost is 4/3, but predict returns averageCost 1.33 - the
toFixed(2) formatting - which differs from the mean. -/
theorem c7_counterexample :
    (c7Mon.predict 3).map Prediction.averageCost = some ((133 : ℚ) / 100) ∧
    ((133 : ℚ) / 100) ≠ (4 : ℚ) / 3 := by
  constructor
  · simp [c7Mon, RateLimitMonitor.predict, lastTen, sumCost, lastRemaining, jsToFixed,
      c7Sample, c7Thresholds]
    norm_num
  · norm_num

/-- Claim C7, amended: for every governor state with at least one
tracked sample and every queriesRemaining q, predict returns a record
whose averageCost is the mean cost of the last ten samples rounded by
toFixed(2), whose predictedCost is q times the exact mean rounded by
toFixed(0), whose currentRemaining is the remaining field of the most
recent sample, whose safeQueries is the floor of currentRemaining over
the exact mean, and whose willExceedLimit is true iff q times the exact
mean exceeds currentRemaining. -/
theorem c7_amended (m : RateLimitMonitor) (q : ℚ) (h : m.history ≠ []) :
    m.predict q = some
      { queriesRemaining := q
        averageCost := jsToFixed 2 (specAverageCost m)
        predictedCost := jsToFixed 0 (q * specAverageCost m)
        currentRemaining := (m.history.getLast h).remaining
        willExceedLimit :=
          decide (q * specAverageCost m > (m.history.getLast h).remaining)
        safeQueries :=
          ⌊(m.history.getLast h).remaining / specAverageCost m⌋ } := by
  have hl : ¬ m.history.length = 0 := by
    simpa [List.length_eq_zero] using h
  simp [RateLimitMonitor.predict, hl, specAverageCost, sumCost_eq_map_sum,
    lastRemaining_eq_getLast m.history h]

/-- Witness for c7_amended at the three-sample state and q = 3. -/
theorem c7_amended_witness :
    c7Mon.history ≠ [] ∧
    c7Mon.predict 3 = some
      { queriesRemaining := 3
        averageCost := jsToFixed 2 (specAverageCost c7Mon)
        predictedCost := jsToFixed 0 (3 * specAverageCost c7Mon)
        currentRemaining := (c7Mon.history.getLast c7MonNeNil).remaining
        willExceedLimit :=
          decide (3 * specAverageCost c7Mon > (c7Mon.history.getLast c7MonNeNil).remaining)
        safeQueries :=
          ⌊(c7Mon.history.getLast c7MonNeNil).remaining / specAverageCost c7Mon⌋ } :=
  ⟨c7MonNeNil, c7_amended c7Mon 3 c7MonNeNil⟩

/- ===================================================================
   Claim C8 - completed timestamp versus terminal status
   =================================================================== -/

/-- The job row left by the fail path of the tracker: a fresh row taken
to status failed with an error message. -/
def c8Failed : JobRow :=
  updateJobStatus "failed" (some "boom") "t1" (freshJobRow "t0")

/-- Claim C8, counterexample: a job that transitions to failed carries
NO completed timestamp - the updater stamps completed_at only on the
completed transition - while its status is failed; it also keeps
started_at null whatever the status says. -/
theorem c8_counterexample :
    c8Failed.status = "failed" ∧ c8Failed.completed_at = none ∧
    c8Failed.started_at = none ∧ c8Failed.error = some "boom" := by
  exact ⟨rfl, rfl, rfl, rfl⟩

/-- Claim C8, amended: updateJobStatus stamps completed_at exactly on
the transition to completed; a transition to failed leaves completed_at
untouched and records the error text instead when one is given; no
transition ever writes started_at. -/
theorem c8_amended (st : String) (err : Option String) (now : String) (j : JobRow) :
    (updateJobStatus st err now j).completed_at =
      (if st = "completed" then some now else j.completed_at) ∧
    (updateJobStatus st err now j).started_at = j.started_at ∧
    (updateJobStatus st err now j).status = st ∧
    (updateJobStatus st err now j).updated_at = some now ∧
    (updateJobStatus st err now j).error =
      (if st = "failed" ∧ err ≠ none then err else j.error) := by
  unfold updateJobStatus
  by_cases h1 : st = "completed"
  · subst h1
    have h2 : ¬ (("completed" : String) = "failed" ∧ err ≠ none) := by
      rintro ⟨hc, -⟩
      exact absurd hc (by decide)
    simp [h2]
  · by_cases h2 : st = "failed" ∧ err ≠ none
    · simp [h1, h2]
    · simp [h1, h2]

end HybridCapture
